import Mathlib

/-!
Verification of the regulatory-compliance contract
(`src/stellar-core/compliance-engine/contracts/regulatory_checks/src/lib.rs`).

The contract's persisted storage (Soroban instance and persistent storage)
is modelled as an explicit `ContractState` record; every public operation
becomes a Lean function that takes the state (and, where the source reads
`env.ledger().timestamp()`, an explicit `now : Nat`) and returns its result
together with the state after the call.  `caller.require_auth()` in the
source authenticates the caller argument against the host environment and
never touches contract storage, so it is modelled as a no-op on the state:
the `caller` argument stands for the authenticated invoker.  A storage read
that the source unwraps with `.unwrap()` (a host trap when the key is
absent, which aborts the call and reverts every write) is modelled by an
`Option`-valued operation whose `none` outcome is that trap.

Addresses (`soroban_sdk::Address`) and 32-byte approval keys
(`BytesN<32>`) are opaque identifiers compared only for equality; they are
modelled as `Nat`.  Jurisdiction labels and rule ids are `soroban_sdk::String`
values, modelled as `String`.  `u64` ledger timestamps and `u32` token ids
are modelled as `Nat` (the arithmetic `timestamp + 604800` stays far below
`2^64` for any realistic ledger time).
-/

namespace RegCheck

/-- Opaque account identifier standing for `soroban_sdk::Address`. -/
abbrev Addr := Nat

/-- Opaque 32-byte approval key standing for `BytesN<32>`. -/
abbrev ApprovalKey := Nat

/-- `OperationType` of lib.rs (lines 6-11). -/
inductive OperationType where
  | TRANSFER
  | RETIREMENT
deriving DecidableEq

/-- `JurisdictionRule` of lib.rs (lines 13-24). -/
structure JurisdictionRule where
  rule_id : String
  description : String
  source_jur : String
  dest_jur : String
  host_jur : String
  operation : OperationType
  is_allowed : Bool
  required_authority : Option Addr
deriving DecidableEq

/-- `ValidationResult` of lib.rs (lines 26-34). -/
structure ValidationResult where
  is_compliant : Bool
  rule_id : Option String
  requires_authorization : Bool
  authority_address : Option Addr
  error_message : Option String
deriving DecidableEq

/-- `PendingApproval` of lib.rs (lines 36-45). -/
structure PendingApproval where
  token_id : Nat
  source : Addr
  destination : Addr
  operation : OperationType
  timestamp : Nat
  approved : Bool
deriving DecidableEq

/-- `ContractError` of lib.rs (lines 59-69). -/
inductive ContractError where
  | NotAuthorized
  | RuleNotFound
  | RuleAlreadyExists
  | JurisdictionNotSet
  | InvalidApprovalKey
  | ApprovalExpired
  | NoMatchingRule
deriving DecidableEq

/-- Key-value store lookup: `env.storage().…().get(&key)`. -/
def storeGet {α β : Type} [DecidableEq α] (m : List (α × β)) (k : α) : Option β :=
  match m with
  | [] => none
  | (k2, v) :: rest => if k2 = k then some v else storeGet rest k

/-- Key-value store write: `env.storage().…().set(&key, &value)` (overwrite). -/
def storeSet {α β : Type} [DecidableEq α] (m : List (α × β)) (k : α) (v : β) :
    List (α × β) :=
  match m with
  | [] => [(k, v)]
  | (k2, v2) :: rest => if k2 = k then (k, v) :: rest else (k2, v2) :: storeSet rest k v

/-- Key-value store removal: `env.storage().…().remove(&key)`. -/
def storeRemove {α β : Type} [DecidableEq α] (m : List (α × β)) (k : α) :
    List (α × β) :=
  match m with
  | [] => []
  | (k2, v2) :: rest => if k2 = k then storeRemove rest k else (k2, v2) :: storeRemove rest k

/-- Key presence test: `env.storage().…().has(&key)`. -/
def storeHas {α β : Type} [DecidableEq α] (m : List (α × β)) (k : α) : Bool :=
  (storeGet m k).isSome

/-- The contract's persisted key space (lib.rs `DataKey`, lines 47-57):
`Admin`, `Governance`, `CarbonAssetContract` and `ActiveRuleIds` live in
instance storage and are absent before `initialize` runs, hence `Option`;
`Rule(id)`, `AddressJurisdiction(addr)` and `PendingApproval(key)` are
keyed families in persistent storage, modelled as association lists. -/
structure ContractState where
  admin : Option Addr
  governance : Option Addr
  carbonAssetContract : Option Addr
  rules : List (String × JurisdictionRule)
  activeRuleIds : Option (List String)
  addressJurisdiction : List (Addr × String)
  pendingApprovals : List (ApprovalKey × PendingApproval)
deriving DecidableEq

/-- `initialize` (lib.rs lines 77-98): after `admin.require_auth()`,
unconditionally overwrites the three address keys and resets
`ActiveRuleIds` to the empty list.  There is no already-initialized guard. -/
def initializeContract (s : ContractState) (admin governance carbon_asset_contract : Addr) :
    ContractState :=
  { s with
    admin := some admin
    governance := some governance
    carbonAssetContract := some carbon_asset_contract
    activeRuleIds := some [] }

/-- `get_address_jurisdiction` (lib.rs lines 235-238). -/
def get_address_jurisdiction (s : ContractState) (account : Addr) : Option String :=
  storeGet s.addressJurisdiction account

/-- `rule_matches` (lib.rs lines 418-445): conjunctive wildcard-or-equal
matching, with `"ANY"` the wildcard sentinel. -/
def rule_matches (rule : JurisdictionRule) (source_jur dest_jur host_jur : String)
    (operation : OperationType) : Bool :=
  if rule.operation ≠ operation then false
  else if rule.source_jur ≠ "ANY" ∧ rule.source_jur ≠ source_jur then false
  else if rule.dest_jur ≠ "ANY" ∧ rule.dest_jur ≠ dest_jur then false
  else if rule.host_jur ≠ "ANY" ∧ rule.host_jur ≠ host_jur then false
  else true

/-- The verdict built by `validate_transaction` once a rule has matched
(lib.rs lines 294-327). -/
def matchedVerdict (rule : JurisdictionRule) : ValidationResult :=
  if rule.is_allowed then
    match rule.required_authority with
    | some authority =>
      { is_compliant := true
        rule_id := some rule.rule_id
        requires_authorization := true
        authority_address := some authority
        error_message := none }
    | none =>
      { is_compliant := true
        rule_id := some rule.rule_id
        requires_authorization := false
        authority_address := none
        error_message := none }
  else
    { is_compliant := false
      rule_id := some rule.rule_id
      requires_authorization := false
      authority_address := none
      error_message := some "Transaction prohibited by rule" }

/-- The default-deny verdict returned when the scan exhausts the active
list (lib.rs lines 332-339). -/
def noMatchVerdict : ValidationResult :=
  { is_compliant := false
    rule_id := none
    requires_authorization := false
    authority_address := none
    error_message := some "No matching rule found" }

/-- The scan loop of `validate_transaction` (lib.rs lines 277-330): walk the
active id list in order; an id whose `Rule(id)` entry is absent is skipped;
the first stored rule that matches decides the verdict. -/
def findVerdict (rules : List (String × JurisdictionRule))
    (source_jur dest_jur host_jur : String) (operation : OperationType) :
    List String → ValidationResult
  | [] => noMatchVerdict
  | rid :: rest =>
    match storeGet rules rid with
    | some rule =>
      if rule_matches rule source_jur dest_jur host_jur operation then
        matchedVerdict rule
      else
        findVerdict rules source_jur dest_jur host_jur operation rest
    | none => findVerdict rules source_jur dest_jur host_jur operation rest

/-- `validate_transaction` (lib.rs lines 245-340).  The second component of
the result is the persisted state when the call returns: the source only
reads storage, so every branch returns `s` unchanged. -/
def validate_transaction (s : ContractState) (source_address destination_address : Addr)
    (operation : OperationType) (host_jurisdiction : String) :
    ValidationResult × ContractState :=
  match get_address_jurisdiction s source_address,
        get_address_jurisdiction s destination_address with
  | some source_jur, some dest_jur =>
    (findVerdict s.rules source_jur dest_jur host_jurisdiction operation
        (s.activeRuleIds.getD []), s)
  | _, _ =>
    ({ is_compliant := false
       rule_id := none
       requires_authorization := false
       authority_address := none
       error_message := some "Jurisdiction not set for address" }, s)

/-- `add_rule` (lib.rs lines 105-140): governance-gated; fails
`RuleAlreadyExists` when `Rule(rule_id)` is already stored; otherwise stores
the rule and appends its id to `ActiveRuleIds` (`unwrap_or(Vec::new)`).
`none` models the host trap of `.unwrap()` on a missing `Governance` key. -/
def add_rule (s : ContractState) (caller : Addr) (rule : JurisdictionRule) :
    Option (Except ContractError Unit × ContractState) :=
  match s.governance with
  | none => none
  | some governance =>
    if caller ≠ governance then
      some (.error .NotAuthorized, s)
    else if storeHas s.rules rule.rule_id then
      some (.error .RuleAlreadyExists, s)
    else
      let s1 := { s with rules := storeSet s.rules rule.rule_id rule }
      let active_rules := s1.activeRuleIds.getD []
      some (.ok (), { s1 with activeRuleIds := some (active_rules ++ [rule.rule_id]) })

/-- `update_rule` (lib.rs lines 143-165): governance-gated; fails
`RuleNotFound` when `Rule(rule_id)` is not stored; otherwise overwrites the
stored rule in place.  The active list is not touched. -/
def update_rule (s : ContractState) (caller : Addr) (rule : JurisdictionRule) :
    Option (Except ContractError Unit × ContractState) :=
  match s.governance with
  | none => none
  | some governance =>
    if caller ≠ governance then
      some (.error .NotAuthorized, s)
    else if ¬ storeHas s.rules rule.rule_id then
      some (.error .RuleNotFound, s)
    else
      some (.ok (), { s with rules := storeSet s.rules rule.rule_id rule })

/-- `deactivate_rule` (lib.rs lines 168-207): governance-gated; fails
`RuleNotFound` when `Rule(rule_id)` is not stored; otherwise removes the
stored rule and rebuilds `ActiveRuleIds` filtering away the target id.
`none` models the host traps of `.unwrap()` on missing `Governance` or
`ActiveRuleIds` keys (a trap reverts the whole call, including the removal
already performed). -/
def deactivate_rule (s : ContractState) (caller : Addr) (rule_id : String) :
    Option (Except ContractError Unit × ContractState) :=
  match s.governance with
  | none => none
  | some governance =>
    if caller ≠ governance then
      some (.error .NotAuthorized, s)
    else if ¬ storeHas s.rules rule_id then
      some (.error .RuleNotFound, s)
    else
      let s1 := { s with rules := storeRemove s.rules rule_id }
      match s1.activeRuleIds with
      | none => none
      | some active_rules =>
        some (.ok (),
          { s1 with activeRuleIds := some (active_rules.filter (fun rid => rid ≠ rule_id)) })

/-- `set_address_jurisdiction` (lib.rs lines 214-232): admin-gated write of
`AddressJurisdiction(account)`.  `none` models the `.unwrap()` trap on a
missing `Admin` key. -/
def set_address_jurisdiction (s : ContractState) (caller account : Addr)
    (jurisdiction : String) :
    Option (Except ContractError Unit × ContractState) :=
  match s.admin with
  | none => none
  | some admin =>
    if caller ≠ admin then
      some (.error .NotAuthorized, s)
    else
      some (.ok (),
        { s with addressJurisdiction := storeSet s.addressJurisdiction account jurisdiction })

/-- `record_authorization` (lib.rs lines 347-373): fails
`InvalidApprovalKey` when no `PendingApproval(approval_key)` record exists;
fails `ApprovalExpired` when `now > timestamp + 604800`; otherwise persists
the record with `approved = true`.  `now` is `env.ledger().timestamp()`.
The `authority` argument is the authenticated caller and is not read
otherwise. -/
def record_authorization (s : ContractState) (authority : Addr)
    (approval_key : ApprovalKey) (now : Nat) :
    Except ContractError Unit × ContractState :=
  match storeGet s.pendingApprovals approval_key with
  | none => (.error .InvalidApprovalKey, s)
  | some pending =>
    if now > pending.timestamp + 604800 then
      (.error .ApprovalExpired, s)
    else
      (.ok (),
        { s with pendingApprovals :=
            storeSet s.pendingApprovals approval_key { pending with approved := true } })

/-- `create_pending_approval` (lib.rs lines 376-395): unauthenticated,
infallible; stores a fresh record with `approved = false` and the current
ledger time as `timestamp`, overwriting any record under the same key. -/
def create_pending_approval (s : ContractState) (approval_key : ApprovalKey)
    (token_id : Nat) (source destination : Addr) (operation : OperationType)
    (now : Nat) : ContractState :=
  let pending : PendingApproval :=
    { token_id := token_id
      source := source
      destination := destination
      operation := operation
      timestamp := now
      approved := false }
  { s with pendingApprovals := storeSet s.pendingApprovals approval_key pending }

/-- `check_approval` (lib.rs lines 398-412): true iff a record exists, is
approved, and `now <= timestamp + 604800`. -/
def check_approval (s : ContractState) (approval_key : ApprovalKey) (now : Nat) : Bool :=
  match storeGet s.pendingApprovals approval_key with
  | some pending => pending.approved && now ≤ pending.timestamp + 604800
  | none => false

/-- `update_admin` (lib.rs lines 452-467): admin-gated overwrite of the
`Admin` key.  `none` models the `.unwrap()` trap on a missing `Admin` key. -/
def update_admin (s : ContractState) (caller new_admin : Addr) :
    Option (Except ContractError Unit × ContractState) :=
  match s.admin with
  | none => none
  | some admin =>
    if caller ≠ admin then
      some (.error .NotAuthorized, s)
    else
      some (.ok (), { s with admin := some new_admin })

/-- `update_governance` (lib.rs lines 470-487): governance-gated overwrite
of the `Governance` key. -/
def update_governance (s : ContractState) (caller new_governance : Addr) :
    Option (Except ContractError Unit × ContractState) :=
  match s.governance with
  | none => none
  | some governance =>
    if caller ≠ governance then
      some (.error .NotAuthorized, s)
    else
      some (.ok (), { s with governance := some new_governance })

/-- `get_rule` (lib.rs lines 490-493). -/
def get_rule (s : ContractState) (rule_id : String) : Option JurisdictionRule :=
  storeGet s.rules rule_id

/-- `get_active_rules` (lib.rs lines 496-501). -/
def get_active_rules (s : ContractState) : List String :=
  s.activeRuleIds.getD []

/- Concrete fixtures used by witness theorems. -/

/-- An allow-everything transfer rule. -/
def exRuleAllow : JurisdictionRule :=
  { rule_id := "r1"
    description := "allow all transfers"
    source_jur := "ANY"
    dest_jur := "ANY"
    host_jur := "ANY"
    operation := .TRANSFER
    is_allowed := true
    required_authority := none }

/-- A deny rule that only matches UK-sourced transfers. -/
def exRuleDeny : JurisdictionRule :=
  { rule_id := "r0"
    description := "deny UK sourced transfers"
    source_jur := "UK"
    dest_jur := "ANY"
    host_jur := "ANY"
    operation := .TRANSFER
    is_allowed := false
    required_authority := none }

/-- An allow rule for US to EU transfers that demands authority 7. -/
def exRuleAuth : JurisdictionRule :=
  { rule_id := "r2"
    description := "US to EU transfers need sign-off"
    source_jur := "US"
    dest_jur := "EU"
    host_jur := "ANY"
    operation := .TRANSFER
    is_allowed := true
    required_authority := some 7 }

/-- Base state: admin 1, governance 2, one active allow-all rule, accounts
10 and 11 labelled "US" and "EU". -/
def exState : ContractState :=
  { admin := some 1
    governance := some 2
    carbonAssetContract := some 3
    rules := [("r1", exRuleAllow)]
    activeRuleIds := some ["r1"]
    addressJurisdiction := [(10, "US"), (11, "EU")]
    pendingApprovals := [] }

/-- Like `exState` but with an empty jurisdiction directory. -/
def exStateNoJur : ContractState :=
  { exState with addressJurisdiction := [] }

/-- Like `exState` but with no rules at all. -/
def exStateNoRules : ContractState :=
  { exState with rules := [], activeRuleIds := some [] }

/-- First-match fixture: a non-matching deny rule first, the authority rule
second, the allow-all rule last. -/
def exStateFirstMatch : ContractState :=
  { exState with
    rules := [("r0", exRuleDeny), ("r2", exRuleAuth), ("r1", exRuleAllow)]
    activeRuleIds := some ["r0", "r2", "r1"] }

/-- A pending approval created at ledger time 0. -/
def exPending : PendingApproval :=
  { token_id := 5
    source := 10
    destination := 11
    operation := .TRANSFER
    timestamp := 0
    approved := false }

/-- Like `exState` but holding `exPending` under approval key 42. -/
def exStateApproval : ContractState :=
  { exState with pendingApprovals := [(42, exPending)] }

/- Helper lemmas about the key-value store. -/

theorem storeGet_storeSet_self {α β : Type} [DecidableEq α] (m : List (α × β))
    (k : α) (v : β) : storeGet (storeSet m k v) k = some v := by
  induction m with
  | nil => simp [storeSet, storeGet]
  | cons p rest ih =>
    obtain ⟨k2, v2⟩ := p
    by_cases h : k2 = k <;> simp [storeSet, storeGet, h, ih]

/-- C2: a rule matches iff its operation equals the input operation and each
of the three jurisdiction fields is the wildcard "ANY" or equals the
corresponding input jurisdiction, conjunctively; in particular a rule whose
three jurisdiction fields are all "ANY" matches every input of its
operation kind. -/
theorem rule_matches_iff (rule : JurisdictionRule) (source_jur dest_jur host_jur : String)
    (operation : OperationType) :
    (rule_matches rule source_jur dest_jur host_jur operation = true ↔
      (rule.operation = operation ∧
       (rule.source_jur = "ANY" ∨ rule.source_jur = source_jur) ∧
       (rule.dest_jur = "ANY" ∨ rule.dest_jur = dest_jur) ∧
       (rule.host_jur = "ANY" ∨ rule.host_jur = host_jur))) ∧
    (rule.source_jur = "ANY" → rule.dest_jur = "ANY" → rule.host_jur = "ANY" →
      rule.operation = operation →
      rule_matches rule source_jur dest_jur host_jur operation = true) := by
  have hiff : rule_matches rule source_jur dest_jur host_jur operation = true ↔
      (rule.operation = operation ∧
       (rule.source_jur = "ANY" ∨ rule.source_jur = source_jur) ∧
       (rule.dest_jur = "ANY" ∨ rule.dest_jur = dest_jur) ∧
       (rule.host_jur = "ANY" ∨ rule.host_jur = host_jur)) := by
    unfold rule_matches
    split_ifs with h1 h2 h3 h4 <;> simp <;> tauto
  exact ⟨hiff, fun h1 h2 h3 h4 => hiff.mpr ⟨h4, Or.inl h1, Or.inl h2, Or.inl h3⟩⟩

/-- Witness for C2 at a concrete rule and input. -/
theorem rule_matches_iff_witness :
    rule_matches exRuleAllow "US" "EU" "UK" OperationType.TRANSFER = true :=
  (rule_matches_iff exRuleAllow "US" "EU" "UK" OperationType.TRANSFER).2 rfl rfl rfl rfl

/-- C4: when the jurisdiction of the source or the destination address is
unset, `validate_transaction` returns the not-compliant
"Jurisdiction not set for address" verdict with no rule id and no
authorization, leaving the state unchanged, whatever rules exist. -/
theorem validate_transaction_jurisdiction_unset (s : ContractState)
    (source_address destination_address : Addr) (operation : OperationType)
    (host_jurisdiction : String)
    (h : get_address_jurisdiction s source_address = none ∨
         get_address_jurisdiction s destination_address = none) :
    validate_transaction s source_address destination_address operation host_jurisdiction =
      ({ is_compliant := false
         rule_id := none
         requires_authorization := false
         authority_address := none
         error_message := some "Jurisdiction not set for address" }, s) := by
  rcases hs : get_address_jurisdiction s source_address with _ | sj <;>
    rcases hd : get_address_jurisdiction s destination_address with _ | dj <;>
    simp [validate_transaction, hs, hd] at h ⊢

/-- Witness for C4: a state with an active rule but an empty jurisdiction
directory. -/
theorem validate_transaction_jurisdiction_unset_witness :
    validate_transaction exStateNoJur 10 11 OperationType.TRANSFER "US" =
      ({ is_compliant := false
         rule_id := none
         requires_authorization := false
         authority_address := none
         error_message := some "Jurisdiction not set for address" }, exStateNoJur) :=
  validate_transaction_jurisdiction_unset exStateNoJur 10 11 OperationType.TRANSFER "US"
    (Or.inl rfl)

/-- C7: `validate_transaction` never mutates the persisted state: the state
returned by the call equals the state it was called on, and (read off the
same equation twice) identical calls yield identical results. -/
theorem validate_transaction_pure (s : ContractState)
    (source_address destination_address : Addr) (operation : OperationType)
    (host_jurisdiction : String) :
    (validate_transaction s source_address destination_address operation
        host_jurisdiction).2 = s := by
  unfold validate_transaction
  rcases get_address_jurisdiction s source_address with _ | sj <;>
    rcases get_address_jurisdiction s destination_address with _ | dj <;> rfl

/-- C8: `create_pending_approval` always stores, under the given key, a
record with the given fields, `approved = false` and the current time as
`timestamp` — whatever record (approved or not) was there before. -/
theorem create_pending_approval_stores (s : ContractState) (approval_key : ApprovalKey)
    (token_id : Nat) (source destination : Addr) (operation : OperationType)
    (now : Nat) :
    storeGet (create_pending_approval s approval_key token_id source destination
        operation now).pendingApprovals approval_key =
      some { token_id := token_id
             source := source
             destination := destination
             operation := operation
             timestamp := now
             approved := false } := by
  unfold create_pending_approval
  exact storeGet_storeSet_self _ _ _

/-- The scan returns the default-deny verdict on any id list none of whose
stored rules matches. -/
theorem findVerdict_no_match (rules : List (String × JurisdictionRule))
    (source_jur dest_jur host_jur : String) (operation : OperationType)
    (ids : List String)
    (h : ∀ rid ∈ ids, ∀ rule, storeGet rules rid = some rule →
        rule_matches rule source_jur dest_jur host_jur operation = false) :
    findVerdict rules source_jur dest_jur host_jur operation ids = noMatchVerdict := by
  induction ids with
  | nil => rfl
  | cons rid rest ih =>
    have hrec : ∀ r ∈ rest, ∀ rule, storeGet rules r = some rule →
        rule_matches rule source_jur dest_jur host_jur operation = false :=
      fun r hr2 => h r (List.mem_cons_of_mem _ hr2)
    cases hr : storeGet rules rid with
    | none =>
      simp only [findVerdict, hr]
      exact ih hrec
    | some rule =>
      simp only [findVerdict, hr, h rid (List.mem_cons_self _ _) rule hr,
        Bool.false_eq_true, if_false]
      exact ih hrec

/-- Ids whose stored rules do not match are scanned past without effect. -/
theorem findVerdict_append_no_match (rules : List (String × JurisdictionRule))
    (source_jur dest_jur host_jur : String) (operation : OperationType)
    (pre rest : List String)
    (h : ∀ rid ∈ pre, ∀ rule, storeGet rules rid = some rule →
        rule_matches rule source_jur dest_jur host_jur operation = false) :
    findVerdict rules source_jur dest_jur host_jur operation (pre ++ rest) =
      findVerdict rules source_jur dest_jur host_jur operation rest := by
  induction pre with
  | nil => rfl
  | cons rid pre2 ih =>
    have hrec : ∀ r ∈ pre2, ∀ rule, storeGet rules r = some rule →
        rule_matches rule source_jur dest_jur host_jur operation = false :=
      fun r hr2 => h r (List.mem_cons_of_mem _ hr2)
    rw [List.cons_append]
    cases hr : storeGet rules rid with
    | none =>
      simp only [findVerdict, hr]
      exact ih hrec
    | some rule =>
      simp only [findVerdict, hr, h rid (List.mem_cons_self _ _) rule hr,
        Bool.false_eq_true, if_false]
      exact ih hrec

/-- C3: with both jurisdictions set, if no active rule matches (so in
particular when the active list is empty), `validate_transaction` returns
the default-deny verdict: not compliant, no rule id, no authorization,
error "No matching rule found". -/
theorem validate_transaction_default_deny (s : ContractState)
    (source_address destination_address : Addr) (operation : OperationType)
    (host_jurisdiction source_jur dest_jur : String)
    (hs : get_address_jurisdiction s source_address = some source_jur)
    (hd : get_address_jurisdiction s destination_address = some dest_jur)
    (h : ∀ rid ∈ get_active_rules s, ∀ rule, get_rule s rid = some rule →
        rule_matches rule source_jur dest_jur host_jurisdiction operation = false) :
    (validate_transaction s source_address destination_address operation
        host_jurisdiction).1 =
      { is_compliant := false
        rule_id := none
        requires_authorization := false
        authority_address := none
        error_message := some "No matching rule found" } := by
  simp only [validate_transaction, hs, hd]
  exact findVerdict_no_match _ _ _ _ _ _ h

/-- Witness for C3: a state with zero active rules. -/
theorem validate_transaction_default_deny_witness :
    (validate_transaction exStateNoRules 10 11 OperationType.TRANSFER "US").1 =
      { is_compliant := false
        rule_id := none
        requires_authorization := false
        authority_address := none
        error_message := some "No matching rule found" } :=
  validate_transaction_default_deny exStateNoRules 10 11 OperationType.TRANSFER
    "US" "US" "EU" rfl rfl
    (by intro rid hmem; simp [get_active_rules, exStateNoRules, exState] at hmem)

/-- C1: with both jurisdictions set, the verdict is decided by the earliest
active rule that matches — `pre`, the active ids before it, contribute no
match, and the ids after it (`post`) are arbitrary: a prohibiting rule
yields the not-compliant "Transaction prohibited by rule" verdict carrying
its id; an allowing rule with a required authority yields
compliant-with-authorization carrying that authority; an allowing rule
without one yields compliant with no authorization. -/
theorem validate_transaction_first_match (s : ContractState)
    (source_address destination_address : Addr) (operation : OperationType)
    (host_jurisdiction source_jur dest_jur : String)
    (pre post : List String) (rid : String) (rule : JurisdictionRule)
    (hs : get_address_jurisdiction s source_address = some source_jur)
    (hd : get_address_jurisdiction s destination_address = some dest_jur)
    (hact : get_active_rules s = pre ++ rid :: post)
    (hrule : get_rule s rid = some rule)
    (hmatch : rule_matches rule source_jur dest_jur host_jurisdiction operation = true)
    (hpre : ∀ r ∈ pre, ∀ rule2, get_rule s r = some rule2 →
        rule_matches rule2 source_jur dest_jur host_jurisdiction operation = false) :
    (rule.is_allowed = false →
      (validate_transaction s source_address destination_address operation
          host_jurisdiction).1 =
        { is_compliant := false
          rule_id := some rule.rule_id
          requires_authorization := false
          authority_address := none
          error_message := some "Transaction prohibited by rule" }) ∧
    (∀ authority, rule.is_allowed = true → rule.required_authority = some authority →
      (validate_transaction s source_address destination_address operation
          host_jurisdiction).1 =
        { is_compliant := true
          rule_id := some rule.rule_id
          requires_authorization := true
          authority_address := some authority
          error_message := none }) ∧
    (rule.is_allowed = true → rule.required_authority = none →
      (validate_transaction s source_address destination_address operation
          host_jurisdiction).1 =
        { is_compliant := true
          rule_id := some rule.rule_id
          requires_authorization := false
          authority_address := none
          error_message := none }) := by
  have hrule2 : storeGet s.rules rid = some rule := hrule
  have hpre2 : ∀ r ∈ pre, ∀ rule2, storeGet s.rules r = some rule2 →
      rule_matches rule2 source_jur dest_jur host_jurisdiction operation = false := hpre
  unfold get_active_rules at hact
  have hmain : (validate_transaction s source_address destination_address operation
      host_jurisdiction).1 = matchedVerdict rule := by
    simp only [validate_transaction, hs, hd]
    rw [hact, findVerdict_append_no_match _ _ _ _ _ _ _ hpre2]
    simp only [findVerdict, hrule2, hmatch, if_true]
  refine ⟨?_, ?_, ?_⟩
  · intro hden
    rw [hmain]
    unfold matchedVerdict
    simp [hden]
  · intro authority hallow hauth
    rw [hmain]
    unfold matchedVerdict
    simp [hallow, hauth]
  · intro hallow hauth
    rw [hmain]
    unfold matchedVerdict
    simp [hallow, hauth]

/-- Witness for C1: in `exStateFirstMatch` the first active rule does not
match a US-to-EU transfer, so the second (authority) rule decides. -/
theorem validate_transaction_first_match_witness :
    (validate_transaction exStateFirstMatch 10 11 OperationType.TRANSFER "US").1 =
      { is_compliant := true
        rule_id := some "r2"
        requires_authorization := true
        authority_address := some 7
        error_message := none } :=
  (validate_transaction_first_match exStateFirstMatch 10 11 OperationType.TRANSFER
      "US" "US" "EU" ["r0"] ["r1"] "r2" exRuleAuth rfl rfl rfl rfl rfl
      (by
        intro r hr rule2 h2
        simp only [List.mem_singleton] at hr
        subst hr
        have h3 : get_rule exStateFirstMatch "r0" = some exRuleDeny := rfl
        rw [h3] at h2
        cases h2
        decide)).2.1 7 rfl rfl

/-- C5: `record_authorization` fails `InvalidApprovalKey` exactly when no
record is stored under the key; fails `ApprovalExpired` exactly when a
record with creation time `T` is stored and `now > T + 604800`; and
otherwise succeeds, persisting the stored record with `approved := true`
and every other field unchanged. -/
theorem record_authorization_spec (s : ContractState) (authority : Addr)
    (approval_key : ApprovalKey) (now : Nat) :
    ((record_authorization s authority approval_key now).1 =
        Except.error ContractError.InvalidApprovalKey ↔
      storeGet s.pendingApprovals approval_key = none) ∧
    ((record_authorization s authority approval_key now).1 =
        Except.error ContractError.ApprovalExpired ↔
      ∃ pending, storeGet s.pendingApprovals approval_key = some pending ∧
        now > pending.timestamp + 604800) ∧
    (∀ pending, storeGet s.pendingApprovals approval_key = some pending →
      now ≤ pending.timestamp + 604800 →
      record_authorization s authority approval_key now =
        (Except.ok (),
          { s with
            pendingApprovals :=
                storeSet s.pendingApprovals approval_key
                  { pending with approved := true } })) := by
  rcases hp : storeGet s.pendingApprovals approval_key with _ | pending
  · refine ⟨by simp [record_authorization, hp], by simp [record_authorization, hp], ?_⟩
    intro pending hpend
    exact absurd hpend (by simp)
  · by_cases hexp : now > pending.timestamp + 604800
    · refine ⟨by simp [record_authorization, hp, hexp], ?_, ?_⟩
      · simp [record_authorization, hp, hexp]
      · intro pending2 hpend hle
        injection hpend with h2
        subst h2
        exact absurd hle (by omega)
    · refine ⟨by simp [record_authorization, hp, hexp], ?_, ?_⟩
      · simp [record_authorization, hp, hexp]
      · intro pending2 hpend hle
        injection hpend with h2
        subst h2
        simp [record_authorization, hp, hexp]

/-- Witness for C5: approving key 42 of `exStateApproval` at time 100
succeeds and flips the stored record to approved. -/
theorem record_authorization_spec_witness :
    record_authorization exStateApproval 7 42 100 =
      (Except.ok (),
        { exStateApproval with
          pendingApprovals :=
              storeSet exStateApproval.pendingApprovals 42
                { exPending with approved := true } }) :=
  (record_authorization_spec exStateApproval 7 42 100).2.2 exPending rfl (by decide)

/-- C6: `check_approval` is true exactly when a record is stored under the
key, its approved flag is set, and `now` is within 604800 seconds of its
creation time; consequently, for a record created at time `T` and
authorized at `T + 100`, it is true at any time up to `T + 604800` and
false at `T + 604801`. -/
theorem check_approval_spec (s : ContractState) (approval_key : ApprovalKey) (now : Nat) :
    (check_approval s approval_key now = true ↔
      ∃ pending, storeGet s.pendingApprovals approval_key = some pending ∧
        pending.approved = true ∧ now ≤ pending.timestamp + 604800) ∧
    (∀ token_id source destination operation T authority now2,
      now2 ≤ T + 604800 →
      check_approval
        ((record_authorization
            (create_pending_approval s approval_key token_id source destination
              operation T)
            authority approval_key (T + 100)).2) approval_key now2 = true) ∧
    (∀ token_id source destination operation T authority,
      check_approval
        ((record_authorization
            (create_pending_approval s approval_key token_id source destination
              operation T)
            authority approval_key (T + 100)).2) approval_key (T + 604801) = false) := by
  refine ⟨?_, ?_, ?_⟩
  · rcases hp : storeGet s.pendingApprovals approval_key with _ | pending <;>
      simp [check_approval, hp]
  · intro token_id source destination operation T authority now2 hle
    have h1 : storeGet (create_pending_approval s approval_key token_id source
        destination operation T).pendingApprovals approval_key =
        some ⟨token_id, source, destination, operation, T, false⟩ :=
      storeGet_storeSet_self _ _ _
    have hno : ¬ (T + 100 > T + 604800) := by omega
    simp only [record_authorization, h1, hno, if_false]
    simp only [check_approval, storeGet_storeSet_self]
    simp [hle]
  · intro token_id source destination operation T authority
    have h1 : storeGet (create_pending_approval s approval_key token_id source
        destination operation T).pendingApprovals approval_key =
        some ⟨token_id, source, destination, operation, T, false⟩ :=
      storeGet_storeSet_self _ _ _
    have hno : ¬ (T + 100 > T + 604800) := by omega
    simp only [record_authorization, h1, hno, if_false]
    simp only [check_approval, storeGet_storeSet_self]
    simp

/-- Witness for C6: a record created at time 0 and authorized at time 100
checks true at time 604800. -/
theorem check_approval_spec_witness :
    check_approval
      ((record_authorization
          (create_pending_approval exState 42 5 10 11 OperationType.TRANSFER 0)
          7 42 (0 + 100)).2) 42 604800 = true :=
  (check_approval_spec exState 42 0).2.1 5 10 11 OperationType.TRANSFER 0 7 604800
    (by decide)

/-- C9: every mutating operation is atomic with respect to errors: whenever
it returns a `ContractError`, the persisted state it returns is exactly the
state it was called on. -/
theorem mutating_ops_atomic (s : ContractState) :
    (∀ caller rule e s2, add_rule s caller rule = some (Except.error e, s2) → s2 = s) ∧
    (∀ caller rule e s2, update_rule s caller rule = some (Except.error e, s2) → s2 = s) ∧
    (∀ caller rule_id e s2,
      deactivate_rule s caller rule_id = some (Except.error e, s2) → s2 = s) ∧
    (∀ caller account jurisdiction e s2,
      set_address_jurisdiction s caller account jurisdiction =
        some (Except.error e, s2) → s2 = s) ∧
    (∀ authority approval_key now e,
      (record_authorization s authority approval_key now).1 = Except.error e →
      (record_authorization s authority approval_key now).2 = s) ∧
    (∀ caller new_admin e s2,
      update_admin s caller new_admin = some (Except.error e, s2) → s2 = s) ∧
    (∀ caller new_governance e s2,
      update_governance s caller new_governance = some (Except.error e, s2) → s2 = s) := by
  refine ⟨?_, ?_, ?_, ?_, ?_, ?_, ?_⟩
  · intro caller rule e s2 h
    unfold add_rule at h
    split at h
    · simp at h
    · split_ifs at h with h1 h2 <;> simp at h
      · exact h.2.symm
      · exact h.2.symm
  · intro caller rule e s2 h
    unfold update_rule at h
    split at h
    · simp at h
    · split_ifs at h with h1 h2 <;> simp at h
      · exact h.2.symm
      · exact h.2.symm
  · intro caller rule_id e s2 h
    unfold deactivate_rule at h
    split at h
    · simp at h
    · split_ifs at h with h1 h2
      · simp at h
        exact h.2.symm
      · cases hact : s.activeRuleIds with
        | none => simp [hact] at h
        | some active_rules => simp [hact] at h
      · simp at h
        exact h.2.symm
  · intro caller account jurisdiction e s2 h
    unfold set_address_jurisdiction at h
    split at h
    · simp at h
    · split_ifs at h with h1 <;> simp at h
      exact h.2.symm
  · intro authority approval_key now e h
    rcases hp : storeGet s.pendingApprovals approval_key with _ | pending
    · simp [record_authorization, hp]
    · by_cases hexp : now > pending.timestamp + 604800
      · simp [record_authorization, hp, hexp]
      · simp [record_authorization, hp, hexp] at h
  · intro caller new_admin e s2 h
    unfold update_admin at h
    split at h
    · simp at h
    · split_ifs at h with h1 <;> simp at h
      exact h.2.symm
  · intro caller new_governance e s2 h
    unfold update_governance at h
    split at h
    · simp at h
    · split_ifs at h with h1 <;> simp at h
      exact h.2.symm

/-- Witness for C9: an unauthorized `add_rule` call errors and leaves the
state unchanged. -/
theorem mutating_ops_atomic_witness :
    add_rule exState 99 exRuleAllow =
      some (Except.error ContractError.NotAuthorized, exState) ∧ exState = exState :=
  ⟨rfl, (mutating_ops_atomic exState).1 99 exRuleAllow ContractError.NotAuthorized
    exState rfl⟩

/-- C10: `initialize` has no already-initialized guard: on any state it
overwrites the stored admin, governance and carbon-asset addresses and
resets the active rule list to empty, while every previously stored rule
stays stored under its key; with the active list empty, any input whose
jurisdictions are set gets the default-deny verdict, so the surviving
rules are unreachable through the active list. -/
theorem initializeContract_overwrites (s : ContractState)
    (admin governance carbon_asset_contract : Addr) :
    (initializeContract s admin governance carbon_asset_contract).admin = some admin ∧
    (initializeContract s admin governance carbon_asset_contract).governance =
      some governance ∧
    (initializeContract s admin governance carbon_asset_contract).carbonAssetContract =
      some carbon_asset_contract ∧
    get_active_rules (initializeContract s admin governance carbon_asset_contract) = [] ∧
    (∀ rule_id,
      get_rule (initializeContract s admin governance carbon_asset_contract) rule_id =
        get_rule s rule_id) ∧
    (∀ source_address destination_address operation host_jurisdiction source_jur dest_jur,
      get_address_jurisdiction s source_address = some source_jur →
      get_address_jurisdiction s destination_address = some dest_jur →
      (validate_transaction (initializeContract s admin governance carbon_asset_contract)
          source_address destination_address operation host_jurisdiction).1 =
        { is_compliant := false
          rule_id := none
          requires_authorization := false
          authority_address := none
          error_message := some "No matching rule found" }) := by
  refine ⟨rfl, rfl, rfl, rfl, fun _ => rfl, ?_⟩
  intro source_address destination_address operation host_jurisdiction source_jur
    dest_jur hs hd
  have hs2 : get_address_jurisdiction
      (initializeContract s admin governance carbon_asset_contract) source_address =
      some source_jur := hs
  have hd2 : get_address_jurisdiction
      (initializeContract s admin governance carbon_asset_contract) destination_address =
      some dest_jur := hd
  simp only [validate_transaction, hs2, hd2]
  rfl

/-- Witness for C10: re-running `initialize` on the populated
`exStateFirstMatch` makes every previously matching transfer default-deny. -/
theorem initializeContract_overwrites_witness :
    (validate_transaction (initializeContract exStateFirstMatch 100 101 102) 10 11
        OperationType.TRANSFER "US").1 =
      { is_compliant := false
        rule_id := none
        requires_authorization := false
        authority_address := none
        error_message := some "No matching rule found" } :=
  (initializeContract_overwrites exStateFirstMatch 100 101 102).2.2.2.2.2 10 11
    OperationType.TRANSFER "US" "US" "EU" rfl rfl

end RegCheck
